import Mathlib

/-!
Shallow embedding of `easy_thumbnails/models.py`: the cache-consistent record
resolver (`FileManager.get_file`), its cache-key derivation, the eager
module-level cache initialization, and the cascade-delete schema declarations.

Timestamps are modelled as `Nat`, storage hashes / names / version tags as
`String`.  The persistent store is a list of rows plus a primary-key counter;
the process cache is an association list from derived string keys to records.
Every externally observable action of a `get_file` call is recorded in an
effect trace so that frame conditions ("no store write", "no cache read") can
be stated.
-/

/-- A persisted file record (the abstract `File` model: `storage_hash`,
`name`, `modified`, plus the ORM primary key `pk`). -/
structure FileRec where
  pk : Nat
  storage_hash : String
  name : String
  modified : Nat
deriving DecidableEq

/-- The configuration surface read by the module: `THUMBNAIL_CACHE` is a
truthy cache alias or falsy (`none`), plus the two boolean sub-flags. -/
structure Settings where
  THUMBNAIL_CACHE : Option String
  THUMBNAIL_QUERYSET_CACHING : Bool
  THUMBNAIL_CACHE_DIMENSIONS : Bool
deriving DecidableEq

/-- `settings.THUMBNAIL_CACHE and settings.THUMBNAIL_QUERYSET_CACHING`,
the guard on every cache access inside `get_file`. -/
def cachingOn (s : Settings) : Bool :=
  s.THUMBNAIL_CACHE.isSome && s.THUMBNAIL_QUERYSET_CACHING

/-- A storage backend: its stable hash (`utils.get_storage_hash`) and the
set of file names for which `storage.exists` answers true. -/
structure Storage where
  hash : String
  files : List String
deriving DecidableEq

/-- `storage.exists(name)`. -/
def Storage.fileExists (st : Storage) (n : String) : Bool :=
  st.files.contains n

/-- The persistent record store: rows plus the next primary key to assign. -/
structure DB where
  rows : List FileRec
  nextPk : Nat
deriving DecidableEq

/-- The process-wide cache, an association list keyed by derived strings.
The head entry for a key shadows later ones, matching overwrite-on-set. -/
def Cache := List (String × FileRec)

instance : DecidableEq Cache := by
  unfold Cache
  infer_instance

/-- `cache.get(key)`. -/
def cacheRead (c : Cache) (k : String) : Option FileRec :=
  (List.find? (fun p => p.1 == k) c).map Prod.snd

/-- `cache.set(key, value, None)`: unconditional overwrite of the entry. -/
def cacheWrite (c : Cache) (k : String) (v : FileRec) : Cache :=
  (k, v) :: List.filter (fun p => p.1 != k) c

/-- `FileManager._get_cache_key`:
`easy_thumbnails:{version}:FileManager:{storage_hash}:{name}`. -/
def fileCacheKey (version storageHash nm : String) : String :=
  "easy_thumbnails:" ++ version ++ ":FileManager:" ++ storageHash ++ ":" ++ nm

/-- `ThumbnailManager._get_cache_key`:
`easy_thumbnails:{version}:ThumbnailManager:{storage_hash}:{name}:{source.pk}`. -/
def thumbnailCacheKey (version storageHash nm : String) (sourcePk : Nat) : String :=
  "easy_thumbnails:" ++ version ++ ":ThumbnailManager:" ++ storageHash ++ ":" ++ nm
    ++ ":" ++ toString sourcePk

/-- One externally observable action performed by a `get_file` call. -/
inductive Effect where
  | cacheGet (key : String)
  | cacheSet (key : String) (ttl : Option Nat)
  | storeGet
  | storeGetOrCreate
  | storageExists (nm : String)
  | storeUpdateModified (pk : Nat) (t : Nat)
deriving DecidableEq

/-- `manager.get(**kwargs)`: first row matching (storage_hash, name). -/
def storeFind (db : DB) (storageHash nm : String) : Option FileRec :=
  List.find? (fun r => r.storage_hash == storageHash && r.name == nm) db.rows

/-- `self.get_or_create(**kwargs)`: fetch the row for (storage_hash, name),
or insert a fresh one whose `modified` comes from the `defaults` dict when
given and otherwise from the field default `timezone.now`.  Returns the
record, the `created` flag and the updated store. -/
def getOrCreate (db : DB) (storageHash nm : String) (defModified : Option Nat)
    (now : Nat) : FileRec × Bool × DB :=
  match storeFind db storageHash nm with
  | some r => (r, false, db)
  | none =>
    let r : FileRec :=
      { pk := db.nextPk, storage_hash := storageHash, name := nm,
        modified := defModified.getD now }
    (r, true, { rows := db.rows ++ [r], nextPk := db.nextPk + 1 })

/-- `self.filter(pk=obj.pk).update(modified=t)`: partial update touching only
the `modified` column of the row with the given pk. -/
def storeUpdateModified (db : DB) (pk t : Nat) : DB :=
  { db with rows := db.rows.map (fun r => if r.pk = pk then { r with modified := t } else r) }

/-- Result of a `get_file` call: the returned record (`none` for the bare
`return`), the final `created` flag, the post-state of store and cache, and
the trace of effects in execution order. -/
structure GetFileResult where
  obj? : Option FileRec
  created : Bool
  db : DB
  cache : Cache
  trace : List Effect
deriving DecidableEq

/-- The tail of `get_file` (modification reconciliation):
`if update_modified and not created: if obj.modified != update_modified: ...`
followed by `return obj`. -/
def finishGetFile (s : Settings) (key : String) (update_modified : Option Nat)
    (obj : FileRec) (created : Bool) (db : DB) (c : Cache)
    (tr : List Effect) : GetFileResult :=
  match update_modified with
  | none => ⟨some obj, created, db, c, tr⟩
  | some t =>
    if created then ⟨some obj, created, db, c, tr⟩
    else if obj.modified = t then ⟨some obj, created, db, c, tr⟩
    else
      let db1 := storeUpdateModified db obj.pk t
      let tr1 := tr ++ [Effect.storeUpdateModified obj.pk t]
      if cachingOn s then
        let obj1 := { obj with modified := t }
        ⟨some obj1, created, db1, cacheWrite c key obj1,
          tr1 ++ [Effect.cacheSet key none]⟩
      else ⟨some obj, created, db1, c, tr1⟩

/-- The resolution phase of `get_file`: everything up to (not including) the
`if update_modified and not created:` tail.  Returns `none` exactly where the
Python function executes the bare `return`, and otherwise the resolved record
with its `created` flag, together with the intermediate store, cache and
effect trace. -/
def resolvePhase (s : Settings) (version : String) (now : Nat) (db : DB)
    (c : Cache) (storage : Storage) (nm : String) (create : Bool)
    (update_modified : Option Nat) (check_cache_miss : Bool) :
    Option (FileRec × Bool) × DB × Cache × List Effect :=
  let storageHash := storage.hash
  let key := fileCacheKey version storageHash nm
  if create then
    let (obj, created, db1) := getOrCreate db storageHash nm update_modified now
    (some (obj, created), db1, c, [Effect.storeGetOrCreate])
  else
    let cached : Option FileRec := if cachingOn s then cacheRead c key else none
    let tr0 : List Effect := if cachingOn s then [Effect.cacheGet key] else []
    match cached with
    | some obj => (some (obj, false), db, c, tr0)
    | none =>
      let tr1 := tr0 ++ [Effect.storeGet]
      match storeFind db storageHash nm with
      | some obj =>
        if cachingOn s then
          (some (obj, false), db, cacheWrite c key obj, tr1 ++ [Effect.cacheSet key none])
        else
          (some (obj, false), db, c, tr1)
      | none =>
        if check_cache_miss then
          let tr2 := tr1 ++ [Effect.storageExists nm]
          if storage.fileExists nm then
            let (obj, created, db1) := getOrCreate db storageHash nm none now
            let tr3 := tr2 ++ [Effect.storeGetOrCreate]
            if cachingOn s then
              (some (obj, created), db1, cacheWrite c key obj, tr3 ++ [Effect.cacheSet key none])
            else
              (some (obj, created), db1, c, tr3)
          else (none, db, c, tr2)
        else (none, db, c, tr1)

/-- `FileManager.get_file(storage, name, create, update_modified,
check_cache_miss)` for the source-record manager, as state transformer on
(store, cache): the resolution phase followed by the modification
reconciliation tail.  `version` is the schema-version tag `get_version()`,
`now` the current timestamp `timezone.now`. -/
def get_file (s : Settings) (version : String) (now : Nat) (db : DB) (c : Cache)
    (storage : Storage) (nm : String) (create : Bool)
    (update_modified : Option Nat) (check_cache_miss : Bool) : GetFileResult :=
  let key := fileCacheKey version storage.hash nm
  match resolvePhase s version now db c storage nm create update_modified check_cache_miss with
  | (none, db1, c1, tr1) => ⟨none, false, db1, c1, tr1⟩
  | (some (obj, created), db1, c1, tr1) =>
    finishGetFile s key update_modified obj created db1 c1 tr1

/-- Per-claim helper: is an effect a store write (row created or updated)? -/
def Effect.isStoreWrite : Effect → Bool
  | Effect.storeGetOrCreate => true
  | Effect.storeUpdateModified _ _ => true
  | _ => false

/-- Per-claim helper: is an effect a partial `modified` update? -/
def Effect.isUpdate : Effect → Bool
  | Effect.storeUpdateModified _ _ => true
  | _ => false

/-- Per-claim helper: is an effect a cache access (read or write)? -/
def Effect.isCacheOp : Effect → Bool
  | Effect.cacheGet _ => true
  | Effect.cacheSet _ _ => true
  | _ => false

/-- The error raised by the module for cache misconfiguration
(`ImproperlyConfigured`). -/
inductive ConfigError where
  | improperlyConfigured (msg : String)
deriving DecidableEq

/-- The environment seen at module load: whether `django.core.cache.caches`
can be imported, and which cache names exist in it. -/
structure CachesEnv where
  importable : Bool
  names : List String
deriving DecidableEq

/-- The state the module is left in after a successful load: the selected
cache alias when `THUMBNAIL_CACHE` is truthy, `none` when caching is off. -/
structure ModuleState where
  cacheAlias : Option String
deriving DecidableEq

/-- The module-level initialization block of `models.py`:
`if settings.THUMBNAIL_CACHE:` then import `caches` (ImportError raises
`ImproperlyConfigured`) and index it by the alias (KeyError raises
`ImproperlyConfigured`).  Runs at import time, before any resolver exists. -/
def moduleLoad (thumbnailCache : Option String) (env : CachesEnv) :
    Except ConfigError ModuleState :=
  match thumbnailCache with
  | none => Except.ok ⟨none⟩
  | some alias0 =>
    if !env.importable then
      Except.error (ConfigError.improperlyConfigured
        "You are trying to use the cache on a version of Django that does not support caching")
    else if env.names.contains alias0 then
      Except.ok ⟨some alias0⟩
    else
      Except.error (ConfigError.improperlyConfigured
        "The cache specified in THUMBNAIL_CACHE does not seem to exist")

/-- A `Source` row (C9 schema). -/
structure SourceRec where
  pk : Nat
  storage_hash : String
  name : String
  modified : Nat
deriving DecidableEq

/-- A `Thumbnail` row: a file record plus its `source` foreign key
(`on_delete=models.CASCADE`). -/
structure ThumbRec where
  pk : Nat
  storage_hash : String
  name : String
  modified : Nat
  source : Nat
deriving DecidableEq

/-- A `ThumbnailDimensions` row: one-to-one with a `Thumbnail`
(`on_delete=models.CASCADE`), width/height possibly null. -/
structure DimRec where
  thumbnail : Nat
  width : Option Nat
  height : Option Nat
deriving DecidableEq

/-- The three tables of the thumbnail schema. -/
structure ThumbDB where
  sources : List SourceRec
  thumbnails : List ThumbRec
  dimensions : List DimRec
deriving DecidableEq

/-- Deleting a `Thumbnail` row: the `on_delete=CASCADE` on
`ThumbnailDimensions.thumbnail` removes every dimensions row attached to it. -/
def deleteThumbnailRec (db : ThumbDB) (tpk : Nat) : ThumbDB :=
  { db with thumbnails := db.thumbnails.filter (fun t => t.pk != tpk),
            dimensions := db.dimensions.filter (fun d => d.thumbnail != tpk) }

/-- Deleting a `Source` row: the `on_delete=CASCADE` on `Thumbnail.source`
deletes every thumbnail referencing it (each such deletion cascading to its
dimensions), then the source row itself is removed. -/
def deleteSourceRec (db : ThumbDB) (spk : Nat) : ThumbDB :=
  let dead := db.thumbnails.filter (fun t => t.source == spk)
  let db1 := dead.foldl (fun acc t => deleteThumbnailRec acc t.pk) db
  { db1 with sources := db1.sources.filter (fun srec => srec.pk != spk) }

/-! ### Helper lemmas -/

theorem cacheRead_cacheWrite_same (c : Cache) (k : String) (v : FileRec) :
    cacheRead (cacheWrite c k v) k = some v := by
  simp [cacheRead, cacheWrite, List.find?]

theorem cacheRead_nil (k : String) : cacheRead ([] : Cache) k = none := rfl

theorem fileKey_ne_thumbKey (v storageHash nm : String) (sourcePk : Nat) :
    fileCacheKey v storageHash nm ≠ thumbnailCacheKey v storageHash nm sourcePk := by
  intro heq
  have hd := congrArg String.data heq
  simp only [fileCacheKey, thumbnailCacheKey, String.data_append, List.append_assoc] at hd
  have h2 := List.append_cancel_left hd
  have h3 := List.append_cancel_left h2
  simp only [List.cons_append, List.cons.injEq] at h3
  exact absurd h3.2.1 (by decide)

theorem fileKey_version_injective (v1 v2 storageHash nm : String)
    (heq : fileCacheKey v1 storageHash nm = fileCacheKey v2 storageHash nm) : v1 = v2 := by
  have hd := congrArg String.data heq
  simp only [fileCacheKey, String.data_append, List.append_assoc] at hd
  have h2 := List.append_cancel_left hd
  exact String.ext (List.append_cancel_right h2)

theorem thumbKey_version_injective (v1 v2 storageHash nm : String) (sourcePk : Nat)
    (heq : thumbnailCacheKey v1 storageHash nm sourcePk
      = thumbnailCacheKey v2 storageHash nm sourcePk) : v1 = v2 := by
  have hd := congrArg String.data heq
  simp only [thumbnailCacheKey, String.data_append, List.append_assoc] at hd
  have h2 := List.append_cancel_left hd
  exact String.ext (List.append_cancel_right h2)

/-! ### Claims -/

/-- C5: for every (storageHash, name) pair the cache key derived for a
`ThumbnailRecord` lookup (for any parent source id) is never equal to the
cache key derived for a `SourceRecord` lookup with the same storageHash and
name: the kind tag `FileManager` / `ThumbnailManager` embedded after the
common `easy_thumbnails:{version}:` prefix forces the strings apart. -/
theorem claim_C5_kind_keys_never_collide (v storageHash nm : String) (sourcePk : Nat) :
    fileCacheKey v storageHash nm ≠ thumbnailCacheKey v storageHash nm sourcePk :=
  fileKey_ne_thumbKey v storageHash nm sourcePk

/-- Witness for C5 at a concrete input. -/
theorem claim_C5_witness :
    fileCacheKey "2.10" "abc" "img.png" ≠ thumbnailCacheKey "2.10" "abc" "img.png" 7 :=
  claim_C5_kind_keys_never_collide "2.10" "abc" "img.png" 7

/-- C6: the derived cache key embeds the schema-version tag, so for two
distinct version tags the keys for the same (kind, storageHash, name
[, sourceId]) differ, and an entry cached under the old version tag is never
returned by a lookup performed under the new tag. -/
theorem claim_C6_version_tag_invalidates (v1 v2 storageHash nm : String)
    (sourcePk : Nat) (r : FileRec) (hne : v1 ≠ v2) :
    fileCacheKey v1 storageHash nm ≠ fileCacheKey v2 storageHash nm ∧
    thumbnailCacheKey v1 storageHash nm sourcePk
      ≠ thumbnailCacheKey v2 storageHash nm sourcePk ∧
    cacheRead [(fileCacheKey v1 storageHash nm, r)] (fileCacheKey v2 storageHash nm) = none := by
  refine ⟨fun h => hne (fileKey_version_injective v1 v2 storageHash nm h),
    fun h => hne (thumbKey_version_injective v1 v2 storageHash nm sourcePk h), ?_⟩
  have hk : (fileCacheKey v1 storageHash nm == fileCacheKey v2 storageHash nm) = false :=
    beq_eq_false_iff_ne.mpr (fun h => hne (fileKey_version_injective v1 v2 storageHash nm h))
  simp [cacheRead, List.find?, hk]

/-- Witness for C6 at concrete distinct version tags. -/
theorem claim_C6_witness :
    fileCacheKey "2.9" "abc" "img.png" ≠ fileCacheKey "2.10" "abc" "img.png" ∧
    thumbnailCacheKey "2.9" "abc" "img.png" 7 ≠ thumbnailCacheKey "2.10" "abc" "img.png" 7 ∧
    cacheRead [(fileCacheKey "2.9" "abc" "img.png", ⟨1, "abc", "img.png", 5⟩)]
      (fileCacheKey "2.10" "abc" "img.png") = none :=
  claim_C6_version_tag_invalidates "2.9" "2.10" "abc" "img.png" 7 ⟨1, "abc", "img.png", 5⟩
    (by decide)

/-! ### Branch equations for `resolvePhase` and `finishGetFile` -/

theorem finish_none (s : Settings) (key : String) (obj : FileRec) (created : Bool)
    (db : DB) (c : Cache) (tr : List Effect) :
    finishGetFile s key none obj created db c tr = ⟨some obj, created, db, c, tr⟩ := rfl

theorem finish_created (s : Settings) (key : String) (t : Nat) (obj : FileRec)
    (db : DB) (c : Cache) (tr : List Effect) :
    finishGetFile s key (some t) obj true db c tr = ⟨some obj, true, db, c, tr⟩ := rfl

theorem finish_same (s : Settings) (key : String) (t : Nat) (obj : FileRec)
    (created : Bool) (db : DB) (c : Cache) (tr : List Effect) (h : obj.modified = t) :
    finishGetFile s key (some t) obj created db c tr = ⟨some obj, created, db, c, tr⟩ := by
  cases created <;> simp [finishGetFile, h]

theorem finish_diff_cache (s : Settings) (key : String) (t : Nat) (obj : FileRec)
    (db : DB) (c : Cache) (tr : List Effect) (hcache : cachingOn s = true)
    (h : obj.modified ≠ t) :
    finishGetFile s key (some t) obj false db c tr =
      ⟨some { obj with modified := t }, false, storeUpdateModified db obj.pk t,
        cacheWrite c key { obj with modified := t },
        tr ++ [Effect.storeUpdateModified obj.pk t, Effect.cacheSet key none]⟩ := by
  simp [finishGetFile, h, hcache]

theorem finish_diff_nocache (s : Settings) (key : String) (t : Nat) (obj : FileRec)
    (db : DB) (c : Cache) (tr : List Effect) (hcache : cachingOn s = false)
    (h : obj.modified ≠ t) :
    finishGetFile s key (some t) obj false db c tr =
      ⟨some obj, false, storeUpdateModified db obj.pk t, c,
        tr ++ [Effect.storeUpdateModified obj.pk t]⟩ := by
  simp [finishGetFile, h, hcache]

theorem resolve_create_eq (s : Settings) (v : String) (now : Nat) (db : DB) (c : Cache)
    (st : Storage) (nm : String) (um : Option Nat) (ccm : Bool) :
    resolvePhase s v now db c st nm true um ccm =
      (some ((getOrCreate db st.hash nm um now).1, (getOrCreate db st.hash nm um now).2.1),
       (getOrCreate db st.hash nm um now).2.2, c, [Effect.storeGetOrCreate]) := by
  rcases hg : getOrCreate db st.hash nm um now with ⟨obj, created, db1⟩
  simp [resolvePhase, hg]

theorem resolve_cacheHit (s : Settings) (v : String) (now : Nat) (db : DB) (c : Cache)
    (st : Storage) (nm : String) (um : Option Nat) (ccm : Bool) (obj : FileRec)
    (hcache : cachingOn s = true)
    (hhit : cacheRead c (fileCacheKey v st.hash nm) = some obj) :
    resolvePhase s v now db c st nm false um ccm =
      (some (obj, false), db, c, [Effect.cacheGet (fileCacheKey v st.hash nm)]) := by
  simp [resolvePhase, hcache, hhit]

theorem resolve_storeHit_cache (s : Settings) (v : String) (now : Nat) (db : DB)
    (c : Cache) (st : Storage) (nm : String) (um : Option Nat) (ccm : Bool) (obj : FileRec)
    (hcache : cachingOn s = true)
    (hmiss : cacheRead c (fileCacheKey v st.hash nm) = none)
    (hfind : storeFind db st.hash nm = some obj) :
    resolvePhase s v now db c st nm false um ccm =
      (some (obj, false), db, cacheWrite c (fileCacheKey v st.hash nm) obj,
       [Effect.cacheGet (fileCacheKey v st.hash nm), Effect.storeGet,
        Effect.cacheSet (fileCacheKey v st.hash nm) none]) := by
  simp [resolvePhase, hcache, hmiss, hfind]

theorem resolve_storeHit_nocache (s : Settings) (v : String) (now : Nat) (db : DB)
    (c : Cache) (st : Storage) (nm : String) (um : Option Nat) (ccm : Bool) (obj : FileRec)
    (hcache : cachingOn s = false)
    (hfind : storeFind db st.hash nm = some obj) :
    resolvePhase s v now db c st nm false um ccm =
      (some (obj, false), db, c, [Effect.storeGet]) := by
  simp [resolvePhase, hcache, hfind]

theorem resolve_missReturn (s : Settings) (v : String) (now : Nat) (db : DB)
    (c : Cache) (st : Storage) (nm : String) (um : Option Nat)
    (hmiss : cachingOn s = true → cacheRead c (fileCacheKey v st.hash nm) = none)
    (hfind : storeFind db st.hash nm = none) :
    resolvePhase s v now db c st nm false um false =
      (none, db, c,
       (if cachingOn s then [Effect.cacheGet (fileCacheKey v st.hash nm)] else [])
         ++ [Effect.storeGet]) := by
  cases hc : cachingOn s
  · simp [resolvePhase, hc, hfind]
  · simp [resolvePhase, hc, hmiss hc, hfind]

theorem resolve_miss_storage_absent (s : Settings) (v : String) (now : Nat) (db : DB)
    (c : Cache) (st : Storage) (nm : String) (um : Option Nat)
    (hmiss : cachingOn s = true → cacheRead c (fileCacheKey v st.hash nm) = none)
    (hfind : storeFind db st.hash nm = none)
    (hex : st.fileExists nm = false) :
    resolvePhase s v now db c st nm false um true =
      (none, db, c,
       (if cachingOn s then [Effect.cacheGet (fileCacheKey v st.hash nm)] else [])
         ++ [Effect.storeGet, Effect.storageExists nm]) := by
  cases hc : cachingOn s
  · simp [resolvePhase, hc, hfind, hex]
  · simp [resolvePhase, hc, hmiss hc, hfind, hex]

theorem resolve_miss_storage_exists (s : Settings) (v : String) (now : Nat) (db : DB)
    (c : Cache) (st : Storage) (nm : String) (um : Option Nat)
    (hmiss : cachingOn s = true → cacheRead c (fileCacheKey v st.hash nm) = none)
    (hfind : storeFind db st.hash nm = none)
    (hex : st.fileExists nm = true) :
    resolvePhase s v now db c st nm false um true =
      (some ((getOrCreate db st.hash nm none now).1, (getOrCreate db st.hash nm none now).2.1),
       (getOrCreate db st.hash nm none now).2.2,
       (if cachingOn s then
          cacheWrite c (fileCacheKey v st.hash nm) (getOrCreate db st.hash nm none now).1
        else c),
       ((if cachingOn s then [Effect.cacheGet (fileCacheKey v st.hash nm)] else [])
         ++ [Effect.storeGet, Effect.storageExists nm, Effect.storeGetOrCreate])
         ++ (if cachingOn s then [Effect.cacheSet (fileCacheKey v st.hash nm) none] else [])) := by
  rcases hg : getOrCreate db st.hash nm none now with ⟨obj, created, db1⟩
  cases hc : cachingOn s
  · simp [resolvePhase, hc, hfind, hex, hg]
  · simp [resolvePhase, hc, hmiss hc, hfind, hex, hg]

theorem get_file_eq (s : Settings) (v : String) (now : Nat) (db : DB) (c : Cache)
    (st : Storage) (nm : String) (create : Bool) (um : Option Nat) (ccm : Bool) :
    get_file s v now db c st nm create um ccm =
      match resolvePhase s v now db c st nm create um ccm with
      | (none, db1, c1, tr1) => ⟨none, false, db1, c1, tr1⟩
      | (some (obj, created), db1, c1, tr1) =>
        finishGetFile s (fileCacheKey v st.hash nm) um obj created db1 c1 tr1 := rfl

/-- C3: with `create=false` and `check_cache_miss=false`, resolving any
(storage, name) against an empty store (and the correspondingly empty cache)
returns the explicit absent result `none` — not an error — and the call
performs no store write: the store is unchanged and the trace holds no
create-or-fetch and no update. -/
theorem claim_C3_empty_store_read_returns_absent (s : Settings) (v : String)
    (now npk : Nat) (st : Storage) (nm : String) (um : Option Nat) :
    (get_file s v now ⟨[], npk⟩ [] st nm false um false).obj? = none ∧
    (get_file s v now ⟨[], npk⟩ [] st nm false um false).db = ⟨[], npk⟩ ∧
    ∀ e ∈ (get_file s v now ⟨[], npk⟩ [] st nm false um false).trace,
      e.isStoreWrite = false := by
  have hfind : storeFind ⟨[], npk⟩ st.hash nm = none := rfl
  have hmiss : cachingOn s = true → cacheRead [] (fileCacheKey v st.hash nm) = none :=
    fun _ => rfl
  rw [get_file_eq, resolve_missReturn s v now ⟨[], npk⟩ [] st nm um hmiss hfind]
  cases hc : cachingOn s <;> simp [hc, Effect.isStoreWrite]

/-- Witness for C3 at a concrete input. -/
theorem claim_C3_witness :
    (get_file ⟨some "default", true, false⟩ "2.10" 5 ⟨[], 0⟩ [] ⟨"h", ["other"]⟩
        "img.png" false (some 9) false).obj? = none ∧
    (get_file ⟨some "default", true, false⟩ "2.10" 5 ⟨[], 0⟩ [] ⟨"h", ["other"]⟩
        "img.png" false (some 9) false).db = ⟨[], 0⟩ ∧
    Effect.storeGet.isStoreWrite = false := by
  have h := claim_C3_empty_store_read_returns_absent ⟨some "default", true, false⟩ "2.10" 5 0
    ⟨"h", ["other"]⟩ "img.png" (some 9)
  exact ⟨h.1, h.2.1, h.2.2 Effect.storeGet (by decide)⟩

/-- C7: the module-level cache initialization is eager: when `THUMBNAIL_CACHE`
is truthy and the cache framework cannot be imported or the named cache does
not exist, module load raises `ImproperlyConfigured` immediately, so no
successfully loaded module state (through which `get_file` could be reached)
exists. -/
theorem claim_C7_misconfiguration_raised_at_load (cname : String) (env : CachesEnv)
    (hbad : env.importable = false ∨ env.names.contains cname = false) :
    (∃ msg, moduleLoad (some cname) env
        = Except.error (ConfigError.improperlyConfigured msg)) ∧
    ∀ st : ModuleState, moduleLoad (some cname) env ≠ Except.ok st := by
  obtain ⟨imp, names0⟩ := env
  have herr : ∃ msg, moduleLoad (some cname) ⟨imp, names0⟩
      = Except.error (ConfigError.improperlyConfigured msg) := by
    cases imp
    · exact ⟨"You are trying to use the cache on a version of Django that does not support caching",
        by simp [moduleLoad]⟩
    · rcases hbad with h | h
      · simp at h
      · simp only [CachesEnv.names] at h
        exact ⟨"The cache specified in THUMBNAIL_CACHE does not seem to exist",
          by simp [moduleLoad, show cname ∉ names0 from by simpa using h]⟩
  obtain ⟨msg, hmsg⟩ := herr
  exact ⟨⟨msg, hmsg⟩, fun st hok => by rw [hmsg] at hok; cases hok⟩

/-- Witness for C7: a configured cache name that is absent from the
environment makes module load fail. -/
theorem claim_C7_witness :
    (∃ msg, moduleLoad (some "thumbs") ⟨true, ["default"]⟩
        = Except.error (ConfigError.improperlyConfigured msg)) ∧
    ∀ st : ModuleState, moduleLoad (some "thumbs") ⟨true, ["default"]⟩ ≠ Except.ok st :=
  claim_C7_misconfiguration_raised_at_load "thumbs" ⟨true, ["default"]⟩ (Or.inr (by decide))

theorem get_file_of_resolve_none (s : Settings) (v : String) (now : Nat) (db : DB)
    (c : Cache) (st : Storage) (nm : String) (create : Bool) (um : Option Nat)
    (ccm : Bool) (db1 : DB) (c1 : Cache) (tr1 : List Effect)
    (h : resolvePhase s v now db c st nm create um ccm = (none, db1, c1, tr1)) :
    get_file s v now db c st nm create um ccm = ⟨none, false, db1, c1, tr1⟩ := by
  rw [get_file_eq, h]

theorem get_file_of_resolve_some (s : Settings) (v : String) (now : Nat) (db : DB)
    (c : Cache) (st : Storage) (nm : String) (create : Bool) (um : Option Nat)
    (ccm : Bool) (obj : FileRec) (cr : Bool) (db1 : DB) (c1 : Cache) (tr1 : List Effect)
    (h : resolvePhase s v now db c st nm create um ccm = (some (obj, cr), db1, c1, tr1)) :
    get_file s v now db c st nm create um ccm
      = finishGetFile s (fileCacheKey v st.hash nm) um obj cr db1 c1 tr1 := by
  rw [get_file_eq, h]

theorem finish_nocache_eq (s : Settings) (key : String) (um : Option Nat)
    (obj : FileRec) (cr : Bool) (db : DB) (c : Cache) (tr : List Effect)
    (hoff : cachingOn s = false) :
    finishGetFile s key um obj cr db c tr =
      ⟨(finishGetFile s key um obj cr db [] tr).obj?, cr,
       (finishGetFile s key um obj cr db [] tr).db, c,
       (finishGetFile s key um obj cr db [] tr).trace⟩ := by
  rcases um with _ | t
  · rfl
  · cases cr
    · by_cases hm : obj.modified = t
      · simp [finishGetFile, hm]
      · simp [finishGetFile, hm, hoff]
    · simp [finishGetFile]

theorem finish_trace_nocache (s : Settings) (key : String) (um : Option Nat)
    (obj : FileRec) (cr : Bool) (db : DB) (c : Cache) (tr : List Effect)
    (hoff : cachingOn s = false) :
    ∀ e ∈ (finishGetFile s key um obj cr db c tr).trace,
      e ∈ tr ∨ e.isCacheOp = false := by
  intro e he
  rcases um with _ | t
  · exact Or.inl he
  · cases cr
    · by_cases hm : obj.modified = t
      · rw [finish_same s key t obj false db c tr hm] at he
        exact Or.inl he
      · rw [finish_diff_nocache s key t obj db c tr hoff hm] at he
        rcases List.mem_append.mp he with h | h
        · exact Or.inl h
        · right
          simp only [List.mem_singleton] at h
          simp [h, Effect.isCacheOp]
    · rw [finish_created] at he
      exact Or.inl he

theorem resolve_nocache_eq (s : Settings) (v : String) (now : Nat) (db : DB)
    (c : Cache) (st : Storage) (nm : String) (create : Bool) (um : Option Nat)
    (ccm : Bool) (hoff : cachingOn s = false) :
    resolvePhase s v now db c st nm create um ccm =
      ((resolvePhase s v now db [] st nm create um ccm).1,
       (resolvePhase s v now db [] st nm create um ccm).2.1, c,
       (resolvePhase s v now db [] st nm create um ccm).2.2.2) := by
  rcases hg : getOrCreate db st.hash nm um now with ⟨obj, cr, db1⟩
  rcases hg2 : getOrCreate db st.hash nm none now with ⟨obj2, cr2, db2⟩
  cases create <;> cases ccm <;>
    rcases hsf : storeFind db st.hash nm with _ | obj3 <;>
    cases hex : st.fileExists nm <;>
    simp [resolvePhase, hoff, hg, hg2, hsf, hex]

theorem resolve_trace_nocache (s : Settings) (v : String) (now : Nat) (db : DB)
    (c : Cache) (st : Storage) (nm : String) (create : Bool) (um : Option Nat)
    (ccm : Bool) (hoff : cachingOn s = false) :
    ∀ e ∈ (resolvePhase s v now db c st nm create um ccm).2.2.2,
      e.isCacheOp = false := by
  rcases hg : getOrCreate db st.hash nm um now with ⟨obj, cr, db1⟩
  rcases hg2 : getOrCreate db st.hash nm none now with ⟨obj2, cr2, db2⟩
  cases create <;> cases ccm <;>
    rcases hsf : storeFind db st.hash nm with _ | obj3 <;>
    cases hex : st.fileExists nm <;>
    simp [resolvePhase, hoff, hg, hg2, hsf, hex, Effect.isCacheOp]

/-- C10: when `THUMBNAIL_CACHE` is falsy or `THUMBNAIL_QUERYSET_CACHING` is
off (`cachingOn s = false`), a `get_file` call performs no cache read and no
cache write (its trace holds no cache operation), leaves the cache exactly as
given, and its returned record, `created` flag, store post-state and trace do
not depend on the cache contents at all. -/
theorem claim_C10_caching_disabled_is_cache_transparent (s : Settings) (v : String)
    (now : Nat) (db : DB) (c c2 : Cache) (st : Storage) (nm : String) (create : Bool)
    (um : Option Nat) (ccm : Bool) (hoff : cachingOn s = false) :
    (∀ e ∈ (get_file s v now db c st nm create um ccm).trace, e.isCacheOp = false) ∧
    (get_file s v now db c st nm create um ccm).cache = c ∧
    (get_file s v now db c2 st nm create um ccm).obj?
      = (get_file s v now db c st nm create um ccm).obj? ∧
    (get_file s v now db c2 st nm create um ccm).created
      = (get_file s v now db c st nm create um ccm).created ∧
    (get_file s v now db c2 st nm create um ccm).db
      = (get_file s v now db c st nm create um ccm).db ∧
    (get_file s v now db c2 st nm create um ccm).trace
      = (get_file s v now db c st nm create um ccm).trace := by
  rcases hr : resolvePhase s v now db [] st nm create um ccm with ⟨o, db1, cX, tr⟩
  have hres : ∀ cc : Cache, resolvePhase s v now db cc st nm create um ccm = (o, db1, cc, tr) := by
    intro cc
    rw [resolve_nocache_eq s v now db cc st nm create um ccm hoff, hr]
  have htr : ∀ e ∈ tr, e.isCacheOp = false := by
    have h0 := resolve_trace_nocache s v now db [] st nm create um ccm hoff
    rw [hr] at h0
    exact h0
  cases o with
  | none =>
    rw [get_file_of_resolve_none s v now db c st nm create um ccm db1 c tr (hres c),
        get_file_of_resolve_none s v now db c2 st nm create um ccm db1 c2 tr (hres c2)]
    exact ⟨htr, rfl, rfl, rfl, rfl, rfl⟩
  | some pr =>
    rcases pr with ⟨obj, cr⟩
    rw [get_file_of_resolve_some s v now db c st nm create um ccm obj cr db1 c tr (hres c),
        get_file_of_resolve_some s v now db c2 st nm create um ccm obj cr db1 c2 tr (hres c2),
        finish_nocache_eq s (fileCacheKey v st.hash nm) um obj cr db1 c tr hoff,
        finish_nocache_eq s (fileCacheKey v st.hash nm) um obj cr db1 c2 tr hoff]
    refine ⟨?_, rfl, rfl, rfl, rfl, rfl⟩
    intro e he
    rcases finish_trace_nocache s (fileCacheKey v st.hash nm) um obj cr db1 [] tr hoff e he
      with h | h
    · exact htr e h
    · exact h

/-- Witness for C10 at a concrete input with caching disabled and two
different cache contents. -/
theorem claim_C10_witness :
    (∀ e ∈ (get_file ⟨none, true, false⟩ "2.10" 5 ⟨[⟨1, "h", "img.png", 3⟩], 2⟩
        [] ⟨"h", []⟩ "img.png" false (some 9) false).trace, e.isCacheOp = false) ∧
    (get_file ⟨none, true, false⟩ "2.10" 5 ⟨[⟨1, "h", "img.png", 3⟩], 2⟩
        [] ⟨"h", []⟩ "img.png" false (some 9) false).cache = [] ∧
    (get_file ⟨none, true, false⟩ "2.10" 5 ⟨[⟨1, "h", "img.png", 3⟩], 2⟩
        [(fileCacheKey "2.10" "h" "img.png", ⟨1, "h", "img.png", 7⟩)] ⟨"h", []⟩
        "img.png" false (some 9) false).obj?
      = (get_file ⟨none, true, false⟩ "2.10" 5 ⟨[⟨1, "h", "img.png", 3⟩], 2⟩
        [] ⟨"h", []⟩ "img.png" false (some 9) false).obj? ∧
    (get_file ⟨none, true, false⟩ "2.10" 5 ⟨[⟨1, "h", "img.png", 3⟩], 2⟩
        [(fileCacheKey "2.10" "h" "img.png", ⟨1, "h", "img.png", 7⟩)] ⟨"h", []⟩
        "img.png" false (some 9) false).created
      = (get_file ⟨none, true, false⟩ "2.10" 5 ⟨[⟨1, "h", "img.png", 3⟩], 2⟩
        [] ⟨"h", []⟩ "img.png" false (some 9) false).created ∧
    (get_file ⟨none, true, false⟩ "2.10" 5 ⟨[⟨1, "h", "img.png", 3⟩], 2⟩
        [(fileCacheKey "2.10" "h" "img.png", ⟨1, "h", "img.png", 7⟩)] ⟨"h", []⟩
        "img.png" false (some 9) false).db
      = (get_file ⟨none, true, false⟩ "2.10" 5 ⟨[⟨1, "h", "img.png", 3⟩], 2⟩
        [] ⟨"h", []⟩ "img.png" false (some 9) false).db ∧
    (get_file ⟨none, true, false⟩ "2.10" 5 ⟨[⟨1, "h", "img.png", 3⟩], 2⟩
        [(fileCacheKey "2.10" "h" "img.png", ⟨1, "h", "img.png", 7⟩)] ⟨"h", []⟩
        "img.png" false (some 9) false).trace
      = (get_file ⟨none, true, false⟩ "2.10" 5 ⟨[⟨1, "h", "img.png", 3⟩], 2⟩
        [] ⟨"h", []⟩ "img.png" false (some 9) false).trace :=
  claim_C10_caching_disabled_is_cache_transparent ⟨none, true, false⟩ "2.10" 5
    ⟨[⟨1, "h", "img.png", 3⟩], 2⟩ []
    [(fileCacheKey "2.10" "h" "img.png", ⟨1, "h", "img.png", 7⟩)] ⟨"h", []⟩
    "img.png" false (some 9) false (by decide)

/-- C8: on a read-path call (`create=false`) that misses the cache and hits
the store while caching is enabled, the resolved record is written through to
the cache (overwrite semantics), the cached copy afterwards equals the
returned record, and every cache write the call performs carries `ttl = none`
(no expiry). -/
theorem claim_C8_store_hit_write_through (s : Settings) (v : String) (now : Nat)
    (db : DB) (c : Cache) (st : Storage) (nm : String) (um : Option Nat) (ccm : Bool)
    (obj : FileRec) (hcache : cachingOn s = true)
    (hmiss : cacheRead c (fileCacheKey v st.hash nm) = none)
    (hfind : storeFind db st.hash nm = some obj) :
    (∃ objF, (get_file s v now db c st nm false um ccm).obj? = some objF ∧
      cacheRead ((get_file s v now db c st nm false um ccm).cache)
        (fileCacheKey v st.hash nm) = some objF) ∧
    Effect.cacheSet (fileCacheKey v st.hash nm) none
      ∈ (get_file s v now db c st nm false um ccm).trace ∧
    ∀ k ttl, Effect.cacheSet k ttl ∈ (get_file s v now db c st nm false um ccm).trace →
      ttl = none := by
  rw [get_file_of_resolve_some s v now db c st nm false um ccm obj false db
      (cacheWrite c (fileCacheKey v st.hash nm) obj) _
      (resolve_storeHit_cache s v now db c st nm um ccm obj hcache hmiss hfind)]
  rcases um with _ | t
  · rw [finish_none]
    refine ⟨⟨obj, rfl, cacheRead_cacheWrite_same c _ obj⟩, by simp, ?_⟩
    intro k ttl h
    simp at h
    exact h.2
  · by_cases hm : obj.modified = t
    · rw [finish_same _ _ _ _ _ _ _ _ hm]
      refine ⟨⟨obj, rfl, cacheRead_cacheWrite_same c _ obj⟩, by simp, ?_⟩
      intro k ttl h
      simp at h
      exact h.2
    · rw [finish_diff_cache _ _ _ _ _ _ _ hcache hm]
      refine ⟨⟨_, rfl, cacheRead_cacheWrite_same _ _ _⟩, by simp, ?_⟩
      intro k ttl h
      simp at h
      exact h.2

/-- Witness for C8 at a concrete input. -/
theorem claim_C8_witness :
    (∃ objF, (get_file ⟨some "c", true, false⟩ "2.10" 7 ⟨[⟨1, "h", "img.png", 5⟩], 2⟩
        [] ⟨"h", []⟩ "img.png" false none false).obj? = some objF ∧
      cacheRead ((get_file ⟨some "c", true, false⟩ "2.10" 7 ⟨[⟨1, "h", "img.png", 5⟩], 2⟩
        [] ⟨"h", []⟩ "img.png" false none false).cache)
        (fileCacheKey "2.10" "h" "img.png") = some objF) ∧
    Effect.cacheSet (fileCacheKey "2.10" "h" "img.png") none
      ∈ (get_file ⟨some "c", true, false⟩ "2.10" 7 ⟨[⟨1, "h", "img.png", 5⟩], 2⟩
        [] ⟨"h", []⟩ "img.png" false none false).trace ∧
    ∀ k ttl, Effect.cacheSet k ttl
      ∈ (get_file ⟨some "c", true, false⟩ "2.10" 7 ⟨[⟨1, "h", "img.png", 5⟩], 2⟩
        [] ⟨"h", []⟩ "img.png" false none false).trace → ttl = none :=
  claim_C8_store_hit_write_through ⟨some "c", true, false⟩ "2.10" 7
    ⟨[⟨1, "h", "img.png", 5⟩], 2⟩ [] ⟨"h", []⟩ "img.png" none false
    ⟨1, "h", "img.png", 5⟩ (by decide) (by decide) (by decide)

theorem resolve_trace_no_update (s : Settings) (v : String) (now : Nat) (db : DB)
    (c : Cache) (st : Storage) (nm : String) (create : Bool) (um : Option Nat)
    (ccm : Bool) :
    ∀ e ∈ (resolvePhase s v now db c st nm create um ccm).2.2.2,
      e.isUpdate = false := by
  rcases hg : getOrCreate db st.hash nm um now with ⟨obj, cr, db1⟩
  rcases hg2 : getOrCreate db st.hash nm none now with ⟨obj2, cr2, db2⟩
  cases create <;> cases hc : cachingOn s <;> cases ccm <;>
    rcases hsf : storeFind db st.hash nm with _ | obj3 <;>
    cases hex : st.fileExists nm <;>
    rcases hcr : cacheRead c (fileCacheKey v st.hash nm) with _ | obj4 <;>
    simp [resolvePhase, hg, hg2, hsf, hex, hcr, hc, Effect.isUpdate]

/-- C1: when `update_modified = some t` is given, the resolution phase
produced an existing (not freshly created) record `obj`, and `obj.modified`
differs from `t`, the call performs exactly one partial store update — the
store afterwards is the old store with only the `modified` column of the row
with `obj`'s pk changed to `t`, every other field and row untouched — and
when caching is enabled the cached copy under the derived key afterwards
carries the new `modified` value. -/
theorem claim_C1_modified_reconciliation (s : Settings) (v : String) (now : Nat)
    (db : DB) (c : Cache) (st : Storage) (nm : String) (create : Bool) (ccm : Bool)
    (t : Nat) (obj : FileRec) (db1 : DB) (c1 : Cache) (tr1 : List Effect)
    (hres : resolvePhase s v now db c st nm create (some t) ccm
      = (some (obj, false), db1, c1, tr1))
    (hmod : obj.modified ≠ t) :
    ((get_file s v now db c st nm create (some t) ccm).trace).countP Effect.isUpdate = 1 ∧
    Effect.storeUpdateModified obj.pk t
      ∈ (get_file s v now db c st nm create (some t) ccm).trace ∧
    (get_file s v now db c st nm create (some t) ccm).db.rows
      = db1.rows.map (fun r => if r.pk = obj.pk then { r with modified := t } else r) ∧
    (cachingOn s = true →
      cacheRead ((get_file s v now db c st nm create (some t) ccm).cache)
          (fileCacheKey v st.hash nm) = some { obj with modified := t } ∧
      (get_file s v now db c st nm create (some t) ccm).obj?
        = some { obj with modified := t }) := by
  have htr1 : ∀ e ∈ tr1, e.isUpdate = false := by
    have h0 := resolve_trace_no_update s v now db c st nm create (some t) ccm
    rw [hres] at h0
    exact h0
  have hcount : tr1.countP Effect.isUpdate = 0 :=
    List.countP_eq_zero.mpr (fun a ha => by simp [htr1 a ha])
  rw [get_file_of_resolve_some s v now db c st nm create (some t) ccm obj false db1 c1 tr1 hres]
  cases hc : cachingOn s
  · rw [finish_diff_nocache s (fileCacheKey v st.hash nm) t obj db1 c1 tr1 hc hmod]
    refine ⟨?_, by simp, by simp [storeUpdateModified], ?_⟩
    · simp [List.countP_append, hcount, Effect.isUpdate, List.countP_cons]
    · exact fun h => absurd h (by decide)
  · rw [finish_diff_cache s (fileCacheKey v st.hash nm) t obj db1 c1 tr1 hc hmod]
    refine ⟨?_, by simp, by simp [storeUpdateModified], ?_⟩
    · simp [List.countP_append, hcount, Effect.isUpdate, List.countP_cons]
    · intro _
      exact ⟨cacheRead_cacheWrite_same c1 _ _, rfl⟩

/-- Witness for C1 at a concrete input: caching enabled, the record is
resolved from the store and its stored `modified` (5) differs from the
requested value (9). -/
theorem claim_C1_witness :
    ((get_file ⟨some "c", true, false⟩ "2.10" 7 ⟨[⟨1, "h", "img.png", 5⟩], 2⟩ []
      ⟨"h", []⟩ "img.png" false (some 9) false).trace).countP Effect.isUpdate = 1 ∧
    Effect.storeUpdateModified 1 9
      ∈ (get_file ⟨some "c", true, false⟩ "2.10" 7 ⟨[⟨1, "h", "img.png", 5⟩], 2⟩ []
      ⟨"h", []⟩ "img.png" false (some 9) false).trace ∧
    (get_file ⟨some "c", true, false⟩ "2.10" 7 ⟨[⟨1, "h", "img.png", 5⟩], 2⟩ []
      ⟨"h", []⟩ "img.png" false (some 9) false).db.rows
      = [⟨1, "h", "img.png", 5⟩].map
          (fun r => if r.pk = 1 then { r with modified := 9 } else r) ∧
    (cachingOn ⟨some "c", true, false⟩ = true →
      cacheRead ((get_file ⟨some "c", true, false⟩ "2.10" 7 ⟨[⟨1, "h", "img.png", 5⟩], 2⟩
          [] ⟨"h", []⟩ "img.png" false (some 9) false).cache)
          (fileCacheKey "2.10" "h" "img.png") = some ⟨1, "h", "img.png", 9⟩ ∧
      (get_file ⟨some "c", true, false⟩ "2.10" 7 ⟨[⟨1, "h", "img.png", 5⟩], 2⟩ []
        ⟨"h", []⟩ "img.png" false (some 9) false).obj? = some ⟨1, "h", "img.png", 9⟩) :=
  claim_C1_modified_reconciliation ⟨some "c", true, false⟩ "2.10" 7
    ⟨[⟨1, "h", "img.png", 5⟩], 2⟩ [] ⟨"h", []⟩ "img.png" false false 9
    ⟨1, "h", "img.png", 5⟩ ⟨[⟨1, "h", "img.png", 5⟩], 2⟩
    (cacheWrite [] (fileCacheKey "2.10" "h" "img.png") ⟨1, "h", "img.png", 5⟩)
    [Effect.cacheGet (fileCacheKey "2.10" "h" "img.png"), Effect.storeGet,
      Effect.cacheSet (fileCacheKey "2.10" "h" "img.png") none]
    (by decide) (by decide)

/-- Counterexample to C2 as stated: with caching enabled
(`THUMBNAIL_CACHE` truthy and `THUMBNAIL_QUERYSET_CACHING` on), an empty
store and cache, `create=false`, `check_cache_miss=true` and the storage
reporting the file exists, the call performs the race-handling
create-or-fetch and returns the record — but, contrary to the claim, the
record IS written into the cache at this point: the trace holds a
`cache.set` and the cache afterwards yields the record. -/
theorem claim_C2_counterexample :
    (get_file ⟨some "c", true, false⟩ "2.10" 5 ⟨[], 0⟩ [] ⟨"h", ["img.png"]⟩
        "img.png" false none true).obj? = some ⟨0, "h", "img.png", 5⟩ ∧
    (get_file ⟨some "c", true, false⟩ "2.10" 5 ⟨[], 0⟩ [] ⟨"h", ["img.png"]⟩
        "img.png" false none true).created = true ∧
    cacheRead ((get_file ⟨some "c", true, false⟩ "2.10" 5 ⟨[], 0⟩ []
        ⟨"h", ["img.png"]⟩ "img.png" false none true).cache)
        (fileCacheKey "2.10" "h" "img.png") = some ⟨0, "h", "img.png", 5⟩ ∧
    Effect.cacheSet (fileCacheKey "2.10" "h" "img.png") none
      ∈ (get_file ⟨some "c", true, false⟩ "2.10" 5 ⟨[], 0⟩ [] ⟨"h", ["img.png"]⟩
        "img.png" false none true).trace := by
  decide

/-- C2 amended: with `create=false`, `check_cache_miss=true`, a cache miss
and a store miss but storage reporting the file exists, a create-or-fetch is
performed, exactly one record is appended to the store and returned — and,
when caching is enabled, that record is written into the cache at this point
(when caching is disabled the cache is untouched). -/
theorem claim_C2_amended_storage_hit_creates (s : Settings) (v : String) (now : Nat)
    (db : DB) (c : Cache) (st : Storage) (nm : String) (um : Option Nat)
    (hmiss : cachingOn s = true → cacheRead c (fileCacheKey v st.hash nm) = none)
    (hfind : storeFind db st.hash nm = none)
    (hex : st.fileExists nm = true) :
    (get_file s v now db c st nm false um true).obj?
      = some ⟨db.nextPk, st.hash, nm, now⟩ ∧
    (get_file s v now db c st nm false um true).created = true ∧
    (get_file s v now db c st nm false um true).db.rows
      = db.rows ++ [⟨db.nextPk, st.hash, nm, now⟩] ∧
    (cachingOn s = true →
      cacheRead ((get_file s v now db c st nm false um true).cache)
        (fileCacheKey v st.hash nm) = some ⟨db.nextPk, st.hash, nm, now⟩) ∧
    (cachingOn s = false → (get_file s v now db c st nm false um true).cache = c) := by
  have hg : getOrCreate db st.hash nm none now
      = (⟨db.nextPk, st.hash, nm, now⟩, true,
         ⟨db.rows ++ [⟨db.nextPk, st.hash, nm, now⟩], db.nextPk + 1⟩) := by
    simp [getOrCreate, hfind]
  have hres0 := resolve_miss_storage_exists s v now db c st nm um hmiss hfind hex
  cases hc : cachingOn s
  · rw [hc] at hres0
    rw [hg] at hres0
    simp only [Bool.false_eq_true, if_false] at hres0
    rw [get_file_of_resolve_some s v now db c st nm false um true _ _ _ _ _ hres0]
    rcases um with _ | t
    · rw [finish_none]
      exact ⟨rfl, rfl, rfl, fun h => absurd h (by decide), fun _ => rfl⟩
    · rw [finish_created]
      exact ⟨rfl, rfl, rfl, fun h => absurd h (by decide), fun _ => rfl⟩
  · rw [hc] at hres0
    rw [hg] at hres0
    simp only [if_true] at hres0
    rw [get_file_of_resolve_some s v now db c st nm false um true _ _ _ _ _ hres0]
    rcases um with _ | t
    · rw [finish_none]
      exact ⟨rfl, rfl, rfl, fun _ => cacheRead_cacheWrite_same c _ _,
        fun h => absurd h (by decide)⟩
    · rw [finish_created]
      exact ⟨rfl, rfl, rfl, fun _ => cacheRead_cacheWrite_same c _ _,
        fun h => absurd h (by decide)⟩

/-- Witness for the amended C2 at a concrete input. -/
theorem claim_C2_witness :
    (get_file ⟨some "c", true, true⟩ "2.10" 6 ⟨[], 4⟩ [] ⟨"g", ["pic.jpg"]⟩
        "pic.jpg" false none true).obj? = some ⟨4, "g", "pic.jpg", 6⟩ ∧
    (get_file ⟨some "c", true, true⟩ "2.10" 6 ⟨[], 4⟩ [] ⟨"g", ["pic.jpg"]⟩
        "pic.jpg" false none true).created = true ∧
    (get_file ⟨some "c", true, true⟩ "2.10" 6 ⟨[], 4⟩ [] ⟨"g", ["pic.jpg"]⟩
        "pic.jpg" false none true).db.rows = [] ++ [⟨4, "g", "pic.jpg", 6⟩] ∧
    (cachingOn ⟨some "c", true, true⟩ = true →
      cacheRead ((get_file ⟨some "c", true, true⟩ "2.10" 6 ⟨[], 4⟩ []
          ⟨"g", ["pic.jpg"]⟩ "pic.jpg" false none true).cache)
        (fileCacheKey "2.10" "g" "pic.jpg") = some ⟨4, "g", "pic.jpg", 6⟩) ∧
    (cachingOn ⟨some "c", true, true⟩ = false →
      (get_file ⟨some "c", true, true⟩ "2.10" 6 ⟨[], 4⟩ [] ⟨"g", ["pic.jpg"]⟩
        "pic.jpg" false none true).cache = []) :=
  claim_C2_amended_storage_hit_creates ⟨some "c", true, true⟩ "2.10" 6 ⟨[], 4⟩ []
    ⟨"g", ["pic.jpg"]⟩ "pic.jpg" none (fun _ => rfl) (by decide) (by decide)

/-- Counterexample to C4 as stated: a `create=true` call CAN write to the
cache.  With caching enabled, a record already in the store with
`modified = 5`, and `update_modified = 9`, the create-or-fetch finds the
existing record (`created` is false) and the shared reconciliation tail both
updates the store and refreshes the cache — the trace holds a `cache.set`
and the cache afterwards holds the record, contradicting "this path does not
write to the cache". -/
theorem claim_C4_counterexample :
    (get_file ⟨some "c", true, false⟩ "2.10" 7 ⟨[⟨1, "h", "img.png", 5⟩], 2⟩ []
        ⟨"h", []⟩ "img.png" true (some 9) false).created = false ∧
    Effect.cacheSet (fileCacheKey "2.10" "h" "img.png") none
      ∈ (get_file ⟨some "c", true, false⟩ "2.10" 7 ⟨[⟨1, "h", "img.png", 5⟩], 2⟩ []
        ⟨"h", []⟩ "img.png" true (some 9) false).trace ∧
    cacheRead ((get_file ⟨some "c", true, false⟩ "2.10" 7 ⟨[⟨1, "h", "img.png", 5⟩], 2⟩
        [] ⟨"h", []⟩ "img.png" true (some 9) false).cache)
      (fileCacheKey "2.10" "h" "img.png") = some ⟨1, "h", "img.png", 9⟩ := by
  decide

/-- C4 amended: on a `create=true` call, `update_modified` is folded into the
creation defaults so a record newly created by the call has
`modified = update_modified`; no cache read is ever attempted; and when the
call really creates the record the cache is untouched — the only possible
cache write on this path is the shared modification-reconciliation refresh,
which occurs only when the record already existed (`created = false`). -/
theorem claim_C4_amended_create_path (s : Settings) (v : String) (now : Nat)
    (db : DB) (c : Cache) (st : Storage) (nm : String) (um : Option Nat) (ccm : Bool) :
    (∀ k, Effect.cacheGet k ∉ (get_file s v now db c st nm true um ccm).trace) ∧
    ((get_file s v now db c st nm true um ccm).created = true →
      (get_file s v now db c st nm true um ccm).cache = c ∧
      (∀ k ttl, Effect.cacheSet k ttl ∉ (get_file s v now db c st nm true um ccm).trace) ∧
      ∀ t, um = some t →
        (get_file s v now db c st nm true um ccm).obj? = some ⟨db.nextPk, st.hash, nm, t⟩) ∧
    (∀ k ttl, Effect.cacheSet k ttl ∈ (get_file s v now db c st nm true um ccm).trace →
      (get_file s v now db c st nm true um ccm).created = false) := by
  rcases hsf : storeFind db st.hash nm with _ | r
  · have hg : getOrCreate db st.hash nm um now
        = (⟨db.nextPk, st.hash, nm, um.getD now⟩, true,
           ⟨db.rows ++ [⟨db.nextPk, st.hash, nm, um.getD now⟩], db.nextPk + 1⟩) := by
      simp [getOrCreate, hsf]
    have hres : resolvePhase s v now db c st nm true um ccm
        = (some (⟨db.nextPk, st.hash, nm, um.getD now⟩, true),
           ⟨db.rows ++ [⟨db.nextPk, st.hash, nm, um.getD now⟩], db.nextPk + 1⟩, c,
           [Effect.storeGetOrCreate]) := by
      rw [resolve_create_eq, hg]
    rw [get_file_of_resolve_some s v now db c st nm true um ccm _ _ _ _ _ hres]
    rcases um with _ | t
    · rw [finish_none]
      exact ⟨fun k => by simp, fun _ => ⟨rfl, fun k ttl => by simp, fun t ht => by cases ht⟩,
        fun k ttl h => by simp at h⟩
    · rw [finish_created]
      refine ⟨fun k => by simp, fun _ => ⟨rfl, fun k ttl => by simp, ?_⟩,
        fun k ttl h => by simp at h⟩
      intro t2 ht2
      injection ht2 with ht2
      subst ht2
      rfl
  · have hg : getOrCreate db st.hash nm um now = (r, false, db) := by
      simp [getOrCreate, hsf]
    have hres : resolvePhase s v now db c st nm true um ccm
        = (some (r, false), db, c, [Effect.storeGetOrCreate]) := by
      rw [resolve_create_eq, hg]
    rw [get_file_of_resolve_some s v now db c st nm true um ccm _ _ _ _ _ hres]
    rcases um with _ | t
    · rw [finish_none]
      exact ⟨fun k => by simp, fun h => by simp at h,
        fun k ttl h => by simp at h⟩
    · by_cases hm : r.modified = t
      · rw [finish_same _ _ _ _ _ _ _ _ hm]
        exact ⟨fun k => by simp, fun h => by simp at h,
          fun k ttl h => by simp at h⟩
      · cases hc : cachingOn s
        · rw [finish_diff_nocache _ _ _ _ _ _ _ hc hm]
          exact ⟨fun k => by simp, fun h => by simp at h,
            fun k ttl h => by simp at h⟩
        · rw [finish_diff_cache _ _ _ _ _ _ _ hc hm]
          exact ⟨fun k => by simp, fun h => by simp at h,
            fun k ttl _ => rfl⟩

/-- Witness for the amended C4: a `create=true` call on an empty store
freshly creates the record with `modified` equal to `update_modified`, reads
nothing from the cache and writes nothing to it. -/
theorem claim_C4_witness :
    Effect.cacheGet (fileCacheKey "2.10" "h" "img.png")
      ∉ (get_file ⟨some "c", true, false⟩ "2.10" 5 ⟨[], 0⟩ [] ⟨"h", []⟩
        "img.png" true (some 9) false).trace ∧
    (get_file ⟨some "c", true, false⟩ "2.10" 5 ⟨[], 0⟩ [] ⟨"h", []⟩
        "img.png" true (some 9) false).cache = [] ∧
    Effect.cacheSet (fileCacheKey "2.10" "h" "img.png") none
      ∉ (get_file ⟨some "c", true, false⟩ "2.10" 5 ⟨[], 0⟩ [] ⟨"h", []⟩
        "img.png" true (some 9) false).trace ∧
    (get_file ⟨some "c", true, false⟩ "2.10" 5 ⟨[], 0⟩ [] ⟨"h", []⟩
        "img.png" true (some 9) false).obj? = some ⟨0, "h", "img.png", 9⟩ := by
  have h := claim_C4_amended_create_path ⟨some "c", true, false⟩ "2.10" 5 ⟨[], 0⟩ []
    ⟨"h", []⟩ "img.png" (some 9) false
  have hcr : (get_file ⟨some "c", true, false⟩ "2.10" 5 ⟨[], 0⟩ [] ⟨"h", []⟩
      "img.png" true (some 9) false).created = true := by decide
  exact ⟨h.1 _, (h.2.1 hcr).1, (h.2.1 hcr).2.1 _ none, (h.2.1 hcr).2.2 9 rfl⟩

theorem mem_thumbs_of_foldl_delete (L : List ThumbRec) (db : ThumbDB) (t : ThumbRec)
    (ht : t ∈ (L.foldl (fun acc x => deleteThumbnailRec acc x.pk) db).thumbnails) :
    t ∈ db.thumbnails ∧ ∀ x ∈ L, t.pk ≠ x.pk := by
  induction L generalizing db with
  | nil => simpa using ht
  | cons x xs ih =>
    simp only [List.foldl_cons] at ht
    obtain ⟨h1, h2⟩ := ih (deleteThumbnailRec db x.pk) ht
    simp only [deleteThumbnailRec, List.mem_filter] at h1
    refine ⟨h1.1, ?_⟩
    intro y hy
    rcases List.mem_cons.mp hy with rfl | hy2
    · simpa using h1.2
    · exact h2 y hy2

theorem mem_dims_of_foldl_delete (L : List ThumbRec) (db : ThumbDB) (d : DimRec)
    (hd : d ∈ (L.foldl (fun acc x => deleteThumbnailRec acc x.pk) db).dimensions) :
    d ∈ db.dimensions ∧ ∀ x ∈ L, d.thumbnail ≠ x.pk := by
  induction L generalizing db with
  | nil => simpa using hd
  | cons x xs ih =>
    simp only [List.foldl_cons] at hd
    obtain ⟨h1, h2⟩ := ih (deleteThumbnailRec db x.pk) hd
    simp only [deleteThumbnailRec, List.mem_filter] at h1
    refine ⟨h1.1, ?_⟩
    intro y hy
    rcases List.mem_cons.mp hy with rfl | hy2
    · simpa using h1.2
    · exact h2 y hy2

/-- C9: deleting a `Source` cascades to every `Thumbnail` referencing it, and
deleting a `Thumbnail` cascades to its attached `ThumbnailDimensions`; hence
after `deleteSourceRec db spk` no thumbnail with `source = spk` remains and no
dimensions row attached to any such thumbnail remains. -/
theorem claim_C9_cascade_delete (db : ThumbDB) (spk : Nat) :
    (∀ t ∈ (deleteSourceRec db spk).thumbnails, t.source ≠ spk) ∧
    (∀ d ∈ (deleteSourceRec db spk).dimensions, ∀ t ∈ db.thumbnails,
      t.source = spk → d.thumbnail ≠ t.pk) ∧
    (∀ tpk, ∀ d ∈ (deleteThumbnailRec db tpk).dimensions, d.thumbnail ≠ tpk) := by
  refine ⟨?_, ?_, ?_⟩
  · intro t ht
    simp only [deleteSourceRec] at ht
    obtain ⟨h1, h2⟩ := mem_thumbs_of_foldl_delete _ db t ht
    intro hsrc
    have hdead : t ∈ db.thumbnails.filter (fun x => x.source == spk) :=
      List.mem_filter.mpr ⟨h1, by simp [hsrc]⟩
    exact h2 t hdead rfl
  · intro d hd t ht hsrc
    simp only [deleteSourceRec] at hd
    obtain ⟨h1, h2⟩ := mem_dims_of_foldl_delete _ db d hd
    have hdead : t ∈ db.thumbnails.filter (fun x => x.source == spk) :=
      List.mem_filter.mpr ⟨ht, by simp [hsrc]⟩
    exact h2 t hdead
  · intro tpk d hd
    simp only [deleteThumbnailRec, List.mem_filter] at hd
    simpa using hd.2

/-- Witness for C9 on a concrete database: one source (pk 1) with two
thumbnails (pks 10, 11) carrying dimensions, plus an unrelated thumbnail. -/
theorem claim_C9_witness :
    ((⟨10, "h", "a.png", 3, 1⟩ : ThumbRec)
        ∈ (deleteSourceRec ⟨[⟨1, "h", "src.png", 2⟩],
            [⟨10, "h", "a.png", 3, 1⟩, ⟨11, "h", "b.png", 3, 1⟩, ⟨12, "h", "c.png", 3, 2⟩],
            [⟨10, some 40, some 30⟩, ⟨11, none, some 20⟩, ⟨12, some 8, some 6⟩]⟩
            1).thumbnails →
      (10 : Nat) ≠ 10) ∧
    ((⟨10, some 40, some 30⟩ : DimRec)
        ∈ (deleteSourceRec ⟨[⟨1, "h", "src.png", 2⟩],
            [⟨10, "h", "a.png", 3, 1⟩, ⟨11, "h", "b.png", 3, 1⟩, ⟨12, "h", "c.png", 3, 2⟩],
            [⟨10, some 40, some 30⟩, ⟨11, none, some 20⟩, ⟨12, some 8, some 6⟩]⟩
            1).dimensions →
      (10 : Nat) ≠ 10) ∧
    ((⟨11, none, some 20⟩ : DimRec)
        ∈ (deleteThumbnailRec ⟨[⟨1, "h", "src.png", 2⟩],
            [⟨10, "h", "a.png", 3, 1⟩, ⟨11, "h", "b.png", 3, 1⟩, ⟨12, "h", "c.png", 3, 2⟩],
            [⟨10, some 40, some 30⟩, ⟨11, none, some 20⟩, ⟨12, some 8, some 6⟩]⟩
            11).dimensions →
      (11 : Nat) ≠ 11) := by
  have h := claim_C9_cascade_delete ⟨[⟨1, "h", "src.png", 2⟩],
    [⟨10, "h", "a.png", 3, 1⟩, ⟨11, "h", "b.png", 3, 1⟩, ⟨12, "h", "c.png", 3, 2⟩],
    [⟨10, some 40, some 30⟩, ⟨11, none, some 20⟩, ⟨12, some 8, some 6⟩]⟩ 1
  refine ⟨fun hm => (h.1 _ hm rfl).elim, fun hm => ?_, fun hm => h.2.2 11 _ hm⟩
  exact h.2.1 _ hm ⟨10, "h", "a.png", 3, 1⟩ (by decide) rfl
